import Mathlib

/-!
Verification development for the AeroNav deployment helper
(`scripts/deploy_hf_spaces.py`).  The script embeds a chatbot application
as a template string; the functions modelled here are the ICAO airport
lookup, the AFTN→AMHS address conversion, the session persistence layer,
and the command-line entry point of the deployment script itself.

Python strings are modelled as Lean `String` restricted to the ASCII
behaviour of `upper`, `strip` and `lower`; Python `dict` values keyed by
strings are modelled as association lists with first-match lookup, which
agrees with Python dictionary semantics for the finite literal tables of
the source.  External effects (the DuckDuckGo web search, `subprocess`
git invocations, `input` prompts, the session file) are modelled by
explicit outcome parameters so the functions stay pure and executable.
-/

/-- Model of Python `str.upper` restricted to ASCII: uppercase every
character (`Char.toUpper` maps only `a`–`z`). -/
def pyUpper (s : String) : String := ⟨s.data.map Char.toUpper⟩

/-- Model of Python `str.lower` restricted to ASCII. -/
def pyLower (s : String) : String := ⟨s.data.map Char.toLower⟩

/-- Model of Python `str.strip`: remove leading and trailing whitespace. -/
def pyStrip (s : String) : String :=
  ⟨((s.data.dropWhile Char.isWhitespace).reverse.dropWhile Char.isWhitespace).reverse⟩

/-- Model of Python slicing `s[:n]`, which truncates to the first `n`
characters (code points). -/
def pyTake (n : Nat) (s : String) : String := ⟨s.data.take n⟩

/-- Model of Python `needle in hay` over the character list of `hay`. -/
def listHasSubstr (needle : List Char) : List Char → Bool
  | [] => needle.isEmpty
  | c :: t => needle.isPrefixOf (c :: t) || listHasSubstr needle t

/-- Model of Python `needle in hay` on strings. -/
def pyIn (needle hay : String) : Bool := listHasSubstr needle.data hay.data

/-- Model of Python `dict.get` on a string-keyed literal dictionary,
represented as an association list (keys of the source tables are
distinct, so first-match lookup agrees with Python). -/
def pyDictGet (l : List (String × String)) (k : String) : Option String :=
  match l with
  | [] => none
  | (k2, v) :: t => if k = k2 then some v else pyDictGet t k

/-- Python truthiness of a `dict.get` result: `None` and the empty string
are falsy, every other string is truthy. -/
def pyTruthy : Option String → Bool
  | none => false
  | some s => !(s == "")

/-- Outcome of the external DuckDuckGo search used by `ICAOTools`:
either `search.run` returns a string, or it (or the tool construction)
raises an exception whose message is `e`. -/
inductive SearchOutcome where
  | success (res : String)
  | failure (e : String)
  deriving Repr, DecidableEq

/-- `ICAOTools.web_search`: runs the DuckDuckGo search and returns the
first 1000 characters of the result; every exception is caught inside
the function and converted to the string `"Search unavailable: <e>"`.
The function itself therefore never raises. -/
def web_search (outcome : SearchOutcome) (_query : String) : String :=
  match outcome with
  | .success res => pyTake 1000 res
  | .failure e => "Search unavailable: " ++ e

/-- `ICAOTools.AIRPORT_DB`: the fixed airport table of the source,
fifteen entries mapping four-letter ICAO codes to display names. -/
def AIRPORT_DB : List (String × String) :=
  [("HECA", "Cairo Intl (Egypt)"),
   ("HEBA", "Borg El Arab (Egypt)"),
   ("OJAA", "Queen Alia (Jordan)"),
   ("EGLL", "London Heathrow (UK)"),
   ("LFPG", "Paris CDG (France)"),
   ("KJFK", "JFK New York (USA)"),
   ("KORD", "O\x27Hare Chicago (USA)"),
   ("EHAM", "Amsterdam Schiphol (Netherlands)"),
   ("EDDF", "Frankfurt (Germany)"),
   ("ZBAA", "Beijing Capital (China)"),
   ("RJTT", "Tokyo Haneda (Japan)"),
   ("YSSY", "Sydney (Australia)"),
   ("FAOR", "OR Tambo Johannesburg (South Africa)"),
   ("OMDB", "Dubai (UAE)"),
   ("VHHH", "Hong Kong (China)")]

/-- `ICAOTools.lookup_airport`.  The string component is the returned
message; the boolean component records whether `web_search` was invoked.
The source normalises the input with `.upper().strip()` before the
length check, answers from `AIRPORT_DB` when the entry is truthy, and
otherwise calls `web_search`; since `web_search` catches every exception
internally, the `except` branch of the source is unreachable and the
result is classified only by the content filter on the search string. -/
def lookup_airport (outcome : SearchOutcome) (icao_code : String) : String × Bool :=
  let code := pyStrip (pyUpper icao_code)
  if code.length ≠ 4 then
    ("Error: ICAO code must be exactly 4 characters. Got: \x27" ++ code ++ "\x27", false)
  else
    let result := pyDictGet AIRPORT_DB code
    if pyTruthy result then
      (result.getD "", false)
    else
      let search_result := web_search outcome ("ICAO airport code " ++ code ++ " location airport name")
      if search_result ≠ "" ∧ pyIn "Error" search_result = false ∧ search_result.length > 10 then
        ("⚠️ ICAO code \x27" ++ code ++ "\x27 not found in local database.\n" ++
         "🔎 Searching online...\n\n" ++
         "📍 Found result:\n" ++ pyTake 800 search_result, true)
      else
        ("❌ ICAO code \x27" ++ code ++ "\x27 not found in local database.\n" ++
         "🔍 Web search did not return useful results.\n" ++
         "💡 Please verify the ICAO code and try again.", true)

/-- The `prmd_map` literal of `ICAOTools.bridge_aftn_to_amhs`: thirteen
entries mapping address prefixes to country names (note the one-letter
key `"K"`). -/
def prmd_map : List (String × String) :=
  [("HE", "EGYPT"), ("OJ", "JORDAN"), ("EG", "UK"),
   ("LF", "FRANCE"), ("K", "USA"), ("EH", "NETHERLANDS"),
   ("ED", "GERMANY"), ("ZB", "CHINA"), ("RJ", "JAPAN"),
   ("YS", "AUSTRALIA"), ("FA", "SOUTH AFRICA"),
   ("OM", "UAE"), ("VH", "HONG KONG")]

/-- `ICAOTools.bridge_aftn_to_amhs`: normalise with `.upper().strip()`,
validate the length, look the two-character slice `addr[:2]` up in
`prmd_map` with default `"UNKNOWN"`, and format the X.400 string. -/
def bridge_aftn_to_amhs (aftn_address : String) : String :=
  let addr := pyStrip (pyUpper aftn_address)
  if addr.length ≠ 8 then
    "Error: Address must be exactly 8 characters."
  else
    let pfx : String := ⟨addr.data.take 2⟩
    let prmd := (pyDictGet prmd_map pfx).getD "UNKNOWN"
    "/C=XX/A=ICAO/P=" ++ prmd ++ "/O=" ++ (⟨addr.data.take 4⟩ : String) ++
      "/OU1=" ++ (⟨addr.data.drop 4⟩ : String) ++ "/"

/-- A chat message as stored in the session file: a JSON object modelled
as a list of string key/value pairs. -/
abbrev Message : Type := List (String × String)

/-- The value stored under a session id by `SessionManager.save_session`:
an ISO timestamp and the conversation history. -/
structure SessionRecord where
  timestamp : String
  history : List Message

/-- Observable state of the `sessions.json` file at the time a
`SessionManager` method runs: the file may be absent, present but
unreadable or unparsable as JSON, or parsed into a string-keyed mapping
of session records (an association list, as for the other dicts). -/
inductive SessionFile where
  | absent
  | unreadable
  | stored (entries : List (String × SessionRecord))

/-- Model of Python dict assignment `data[k] = v` on an association
list: replace the value at an existing key in place, otherwise append. -/
def dictSet (l : List (String × SessionRecord)) (k : String) (v : SessionRecord) :
    List (String × SessionRecord) :=
  match l with
  | [] => [(k, v)]
  | (k2, v2) :: t => if k = k2 then (k, v) :: t else (k2, v2) :: dictSet t k v

/-- Lookup in the stored session mapping (Python `data.get(k)`). -/
def lookupSession (l : List (String × SessionRecord)) (k : String) : Option SessionRecord :=
  match l with
  | [] => none
  | (k2, v) :: t => if k = k2 then some v else lookupSession t k

/-- `SessionManager.save_session`: start from `{}`; if the file exists,
try to parse it wholesale (a failed read only prints a warning and keeps
`{}`); bind `session_id` to a fresh timestamped record; rewrite the
whole file.  `now` is the `datetime.now().isoformat()` value and the
final `json.dump` is assumed to succeed (on a write failure the source
only prints a warning). -/
def save_session (file : SessionFile) (now : String) (session_id : String)
    (history : List Message) : SessionFile :=
  let data : List (String × SessionRecord) :=
    match file with
    | .absent => []
    | .unreadable => []
    | .stored entries => entries
  .stored (dictSet data session_id ⟨now, history⟩)

/-- `SessionManager.load_session`: return `[]` when the file does not
exist or cannot be read or parsed, `data.get(session_id, {}).get("history", [])`
otherwise. -/
def load_session (file : SessionFile) (session_id : String) : List Message :=
  match file with
  | .absent => []
  | .unreadable => []
  | .stored entries =>
    match lookupSession entries session_id with
    | none => []
    | some r => r.history

/-- Python falsiness of an optional string (`not x` for `x` an argparse
value or `os.environ.get` result): `None` and `""` are falsy. -/
def pyFalsy : Option String → Bool
  | none => true
  | some s => s == ""

/-- Model of Python `a or b` on optional strings, as used for
`args.api_key or os.environ.get("GOOGLE_API_KEY")`. -/
def pyOrStr (a b : Option String) : Option String :=
  if pyFalsy a then b else a

/-- Externally observable actions of the deployment script, in order:
writing a generated file, running a git subprocess, prompting the
operator on stdin. -/
inductive DeployAction where
  | fileWrite (name : String)
  | gitCmd (cmd : String)
  | promptUser
  deriving Repr, DecidableEq

/-- How the `main` process ends: `sys.exit` with a code, an uncaught
exception (a `CalledProcessError` from a `check=True` subprocess), or a
normal return. -/
inductive ProcOutcome where
  | exited (code : Nat)
  | uncaught (msg : String)
  | finished
  deriving Repr, DecidableEq

/-- Environment of one run of `main`: the command-line flags, the
`GOOGLE_API_KEY` environment variable, the operator's answers to the
two `input()` prompts, and which git invocations succeed (`gitOk i` is
the success of the `i`-th `subprocess.run` call of the run). -/
structure CliEnv where
  apiKeyArg : Option String
  envApiKey : Option String
  spaceNameArg : Option String
  usernameArg : Option String
  interactive : Bool
  confirmAnswer : String
  spaceRepoAnswer : String
  gitOk : Nat → Bool

/-- Run a sequence of `check=True` git subprocesses starting at
invocation index `i`: the trace of commands actually run, and whether
all of them succeeded (the first failure raises `CalledProcessError`,
so nothing after it runs). -/
def runGitSeq (ok : Nat → Bool) (i : Nat) : List String → List DeployAction × Bool
  | [] => ([], true)
  | c :: rest =>
    if ok i then
      let r := runGitSeq ok (i + 1) rest
      (DeployAction.gitCmd c :: r.1, r.2)
    else
      ([DeployAction.gitCmd c], false)

/-- `HuggingFaceDeployer.deploy_to_hf_spaces`: write the three generated
files, run `git init`/`checkout`/`add`/`commit`, prompt for the Space
git URL, then `git remote add` and `git push`; every git call uses
`check=True`, so the first failing one raises an uncaught
`CalledProcessError`. -/
def deploy_to_hf_spaces (env : CliEnv) : List DeployAction × ProcOutcome :=
  let files := [DeployAction.fileWrite "app.py", DeployAction.fileWrite "requirements.txt",
                DeployAction.fileWrite "README.md"]
  let pre := runGitSeq env.gitOk 0
    ["git init", "git checkout -b main", "git add .", "git commit -m"]
  if pre.2 then
    let post := runGitSeq env.gitOk 4 ["git remote add origin", "git push -u origin main --force"]
    if post.2 then
      (files ++ pre.1 ++ [DeployAction.promptUser] ++ post.1, .finished)
    else
      (files ++ pre.1 ++ [DeployAction.promptUser] ++ post.1, .uncaught "CalledProcessError")
  else
    (files ++ pre.1, .uncaught "CalledProcessError")

/-- `HuggingFaceDeployer.run_interactive_setup`: prompt for the Space
name when the flag was falsy, prompt for confirmation, and deploy only
when the lowercased stripped answer is exactly `"y"`. -/
def run_interactive_setup (env : CliEnv) : List DeployAction × ProcOutcome :=
  let namePrompts := if pyFalsy env.spaceNameArg then [DeployAction.promptUser] else []
  let confirm := pyStrip (pyLower env.confirmAnswer)
  if confirm ≠ "y" then
    (namePrompts ++ [DeployAction.promptUser], .finished)
  else
    let d := deploy_to_hf_spaces env
    (namePrompts ++ [DeployAction.promptUser] ++ d.1, d.2)

/-- `main` of the deployment script: resolve the API key as
`args.api_key or os.environ.get("GOOGLE_API_KEY")`, exit with status 1
when it is falsy (before any file or subprocess activity), then run the
interactive setup or the direct deployment. -/
def mainRun (env : CliEnv) : List DeployAction × ProcOutcome :=
  let api_key := pyOrStr env.apiKeyArg env.envApiKey
  if pyFalsy api_key then
    ([], .exited 1)
  else if env.interactive then
    run_interactive_setup env
  else
    deploy_to_hf_spaces env

theorem pyDictGet_mem (l : List (String × String)) (k v : String)
    (h : pyDictGet l k = some v) : (k, v) ∈ l := by
  induction l with
  | nil => simp [pyDictGet] at h
  | cons p t ih =>
    obtain ⟨k2, v2⟩ := p
    by_cases hk : k = k2
    · subst hk
      simp [pyDictGet] at h
      simp [h]
    · simp only [pyDictGet, if_neg hk] at h
      exact List.mem_cons_of_mem _ (ih h)

theorem AIRPORT_DB_entry (k v : String) (h : pyDictGet AIRPORT_DB k = some v) :
    k.length = 4 ∧ v ≠ "" := by
  have hall : ∀ p ∈ AIRPORT_DB, p.1.length = 4 ∧ p.2 ≠ "" := by decide
  exact hall _ (pyDictGet_mem _ _ _ h)

theorem lookup_airport_found (o : SearchOutcome) (s name : String)
    (h : pyDictGet AIRPORT_DB (pyStrip (pyUpper s)) = some name) :
    lookup_airport o s = (name, false) := by
  obtain ⟨hlen, hne⟩ := AIRPORT_DB_entry _ _ h
  simp only [lookup_airport, h, hlen, pyTruthy]
  simp [hne]

theorem lookup_airport_invalid (o : SearchOutcome) (s : String)
    (h : (pyStrip (pyUpper s)).length ≠ 4) :
    lookup_airport o s =
      ("Error: ICAO code must be exactly 4 characters. Got: \x27" ++ pyStrip (pyUpper s) ++ "\x27",
       false) := by
  simp only [lookup_airport]
  rw [if_pos h]

theorem lookup_airport_miss (o : SearchOutcome) (s : String)
    (h4 : (pyStrip (pyUpper s)).length = 4)
    (hnone : pyDictGet AIRPORT_DB (pyStrip (pyUpper s)) = none) :
    lookup_airport o s =
      (let code := pyStrip (pyUpper s)
       let search_result := web_search o ("ICAO airport code " ++ code ++ " location airport name")
       if search_result ≠ "" ∧ pyIn "Error" search_result = false ∧ search_result.length > 10 then
         ("⚠️ ICAO code \x27" ++ code ++ "\x27 not found in local database.\n" ++
          "🔎 Searching online...\n\n" ++
          "📍 Found result:\n" ++ pyTake 800 search_result, true)
       else
         ("❌ ICAO code \x27" ++ code ++ "\x27 not found in local database.\n" ++
          "🔍 Web search did not return useful results.\n" ++
          "💡 Please verify the ICAO code and try again.", true)) := by
  simp only [lookup_airport, h4, hnone, pyTruthy]
  simp

theorem lookup_airport_miss_invokes (o : SearchOutcome) (s : String)
    (h4 : (pyStrip (pyUpper s)).length = 4)
    (hnone : pyDictGet AIRPORT_DB (pyStrip (pyUpper s)) = none) :
    (lookup_airport o s).2 = true := by
  rw [lookup_airport_miss o s h4 hnone]
  by_cases hc : (web_search o ("ICAO airport code " ++ pyStrip (pyUpper s) ++ " location airport name")) ≠ "" ∧
      pyIn "Error" (web_search o ("ICAO airport code " ++ pyStrip (pyUpper s) ++ " location airport name")) = false ∧
      (web_search o ("ICAO airport code " ++ pyStrip (pyUpper s) ++ " location airport name")).length > 10
  · simp only [if_pos hc]
  · simp only [if_neg hc]

theorem bridge_invalid (t : String) (h : (pyStrip (pyUpper t)).length ≠ 8) :
    bridge_aftn_to_amhs t = "Error: Address must be exactly 8 characters." := by
  simp only [bridge_aftn_to_amhs]
  rw [if_pos h]

theorem bridge_valid (t : String) (h : (pyStrip (pyUpper t)).length = 8) :
    bridge_aftn_to_amhs t =
      "/C=XX/A=ICAO/P=" ++ (pyDictGet prmd_map ⟨(pyStrip (pyUpper t)).data.take 2⟩).getD "UNKNOWN" ++
        "/O=" ++ (⟨(pyStrip (pyUpper t)).data.take 4⟩ : String) ++
        "/OU1=" ++ (⟨(pyStrip (pyUpper t)).data.drop 4⟩ : String) ++ "/" := by
  simp only [bridge_aftn_to_amhs, h]
  simp

theorem prmd_map_lookup_K (c : Char) : pyDictGet prmd_map ⟨['K', c]⟩ = none := rfl

theorem toUpper_eq_self_of_upper (c : Char) (h : c.toNat ≤ 90) : Char.toUpper c = c := by
  simp [Char.toUpper, Char.isLower]
  intro hlow
  exfalso
  omega

theorem isWhitespace_eq_false_of_upper (c : Char) (h : 65 ≤ c.toNat) :
    c.isWhitespace = false := by
  simp only [Char.isWhitespace, Bool.or_eq_false_iff]
  refine ⟨⟨⟨?_, ?_⟩, ?_⟩, ?_⟩ <;>
    · simp only [decide_eq_false_iff_not]
      intro hc
      subst hc
      revert h
      decide

theorem map_toUpper_eq_self (l : List Char) (h : ∀ c ∈ l, c.toNat ≤ 90) :
    l.map Char.toUpper = l := by
  induction l with
  | nil => rfl
  | cons c t ih =>
    simp only [List.map_cons]
    rw [toUpper_eq_self_of_upper c (h c (List.mem_cons_self c t)),
      ih fun c hc => h c (List.mem_cons_of_mem _ hc)]

theorem dropWhile_ws_eq_self (l : List Char) (h : ∀ c ∈ l, 65 ≤ c.toNat) :
    l.dropWhile Char.isWhitespace = l := by
  cases l with
  | nil => rfl
  | cons c t =>
    simp only [List.dropWhile_cons]
    rw [isWhitespace_eq_false_of_upper c (h c (List.mem_cons_self c t))]
    simp

theorem pyNormalize_fixed (s : String) (h : ∀ c ∈ s.data, 65 ≤ c.toNat ∧ c.toNat ≤ 90) :
    pyStrip (pyUpper s) = s := by
  obtain ⟨l⟩ := s
  have hu : pyUpper ⟨l⟩ = ⟨l⟩ := by
    show String.mk (l.map Char.toUpper) = String.mk l
    rw [map_toUpper_eq_self l fun c hc => (h c hc).2]
  rw [hu]
  show String.mk (((l.dropWhile Char.isWhitespace).reverse.dropWhile Char.isWhitespace).reverse) = String.mk l
  rw [dropWhile_ws_eq_self l fun c hc => (h c hc).1]
  rw [dropWhile_ws_eq_self l.reverse fun c hc => (h c (List.mem_reverse.mp hc)).1]
  rw [List.reverse_reverse]

theorem lookupSession_dictSet_self (l : List (String × SessionRecord)) (k : String)
    (v : SessionRecord) : lookupSession (dictSet l k v) k = some v := by
  induction l with
  | nil => simp [dictSet, lookupSession]
  | cons p t ih =>
    obtain ⟨k2, v2⟩ := p
    by_cases hk : k = k2
    · subst hk
      simp [dictSet, lookupSession]
    · simp only [dictSet, if_neg hk, lookupSession, ih]

theorem lookupSession_dictSet_other (l : List (String × SessionRecord)) (k k2 : String)
    (v : SessionRecord) (h : k2 ≠ k) :
    lookupSession (dictSet l k v) k2 = lookupSession l k2 := by
  induction l with
  | nil => simp [dictSet, lookupSession, h]
  | cons p t ih =>
    obtain ⟨k3, v3⟩ := p
    by_cases hk : k = k3
    · subst hk
      simp only [dictSet, if_pos rfl, lookupSession]
      rw [if_neg h, if_neg h]
    · simp only [dictSet, if_neg hk, lookupSession]
      by_cases hk2 : k2 = k3
      · rw [if_pos hk2, if_pos hk2]
      · rw [if_neg hk2, if_neg hk2, ih]

theorem deploy_outcome (env : CliEnv) :
    (deploy_to_hf_spaces env).2 = ProcOutcome.finished ∨
    (deploy_to_hf_spaces env).2 = ProcOutcome.uncaught "CalledProcessError" := by
  unfold deploy_to_hf_spaces
  dsimp only
  split
  · split
    · exact Or.inl rfl
    · exact Or.inr rfl
  · exact Or.inr rfl

theorem interactive_outcome (env : CliEnv) :
    (run_interactive_setup env).2 = ProcOutcome.finished ∨
    (run_interactive_setup env).2 = ProcOutcome.uncaught "CalledProcessError" := by
  unfold run_interactive_setup
  dsimp only
  split
  · exact Or.inl rfl
  · exact deploy_outcome env

theorem mainRun_missing_key (env : CliEnv)
    (h : pyFalsy (pyOrStr env.apiKeyArg env.envApiKey) = true) :
    mainRun env = ([], ProcOutcome.exited 1) := by
  simp [mainRun, h]

theorem mainRun_outcome_with_key (env : CliEnv)
    (h : pyFalsy (pyOrStr env.apiKeyArg env.envApiKey) = false) :
    (mainRun env).2 = ProcOutcome.finished ∨
    (mainRun env).2 = ProcOutcome.uncaught "CalledProcessError" := by
  simp only [mainRun, h]
  by_cases hI : env.interactive = true
  · simp only [hI, if_true]
    exact interactive_outcome env
  · simp only [hI, if_false]
    exact deploy_outcome env

theorem lookup_airport_miss_good (o : SearchOutcome) (s : String)
    (h4 : (pyStrip (pyUpper s)).length = 4)
    (hnone : pyDictGet AIRPORT_DB (pyStrip (pyUpper s)) = none)
    (hc : web_search o ("ICAO airport code " ++ pyStrip (pyUpper s) ++ " location airport name") ≠ "" ∧
      pyIn "Error" (web_search o ("ICAO airport code " ++ pyStrip (pyUpper s) ++ " location airport name")) = false ∧
      (web_search o ("ICAO airport code " ++ pyStrip (pyUpper s) ++ " location airport name")).length > 10) :
    lookup_airport o s =
      ("⚠️ ICAO code \x27" ++ pyStrip (pyUpper s) ++ "\x27 not found in local database.\n" ++
       "🔎 Searching online...\n\n" ++
       "📍 Found result:\n" ++
         pyTake 800 (web_search o ("ICAO airport code " ++ pyStrip (pyUpper s) ++ " location airport name")),
       true) := by
  rw [lookup_airport_miss o s h4 hnone]
  exact if_pos hc

theorem lookup_airport_miss_bad (o : SearchOutcome) (s : String)
    (h4 : (pyStrip (pyUpper s)).length = 4)
    (hnone : pyDictGet AIRPORT_DB (pyStrip (pyUpper s)) = none)
    (hc : ¬(web_search o ("ICAO airport code " ++ pyStrip (pyUpper s) ++ " location airport name") ≠ "" ∧
      pyIn "Error" (web_search o ("ICAO airport code " ++ pyStrip (pyUpper s) ++ " location airport name")) = false ∧
      (web_search o ("ICAO airport code " ++ pyStrip (pyUpper s) ++ " location airport name")).length > 10)) :
    lookup_airport o s =
      ("❌ ICAO code \x27" ++ pyStrip (pyUpper s) ++ "\x27 not found in local database.\n" ++
       "🔍 Web search did not return useful results.\n" ++
       "💡 Please verify the ICAO code and try again.", true) := by
  rw [lookup_airport_miss o s h4 hnone]
  exact if_neg hc

/-- C1: for every input string whose uppercased and trimmed form is a
four-letter code present in the fixed airport table, `lookup_airport`
returns exactly the display name associated with that code, and the web
search is not performed (the call flag is `false` and the result does
not depend on the search outcome). -/
theorem claim_C1_table_hit (o : SearchOutcome) (s name : String)
    (h : pyDictGet AIRPORT_DB (pyStrip (pyUpper s)) = some name) :
    lookup_airport o s = (name, false) :=
  lookup_airport_found o s name h

/-- Witness for C1 at the lowercase input `"heca"`, under a failing
search outcome (which the result provably ignores). -/
theorem claim_C1_witness :
    pyDictGet AIRPORT_DB (pyStrip (pyUpper "heca")) = some "Cairo Intl (Egypt)" ∧
    lookup_airport (SearchOutcome.failure "boom") "heca" = ("Cairo Intl (Egypt)", false) :=
  ⟨by decide,
   claim_C1_table_hit (SearchOutcome.failure "boom") "heca" "Cairo Intl (Egypt)" (by decide)⟩

/-- C2 fails on the code: for the four-letter code `"QQQQ"` absent from
the table, a search that fails with exception message `"boom"` is
converted by `web_search` into `"Search unavailable: boom"`, which
passes the usefulness filter (non-empty, no `"Error"` substring, longer
than 10 characters) and is therefore presented as a found result
instead of the verify-the-code fallback message. -/
theorem claim_C2_counterexample :
    lookup_airport (SearchOutcome.failure "boom") "QQQQ" =
      ("⚠️ ICAO code \x27QQQQ\x27 not found in local database.\n" ++
       "🔎 Searching online...\n\n" ++
       "📍 Found result:\nSearch unavailable: boom", true) := by
  decide

/-- C2 (amended): for every four-letter input absent from the table,
`lookup_airport` invokes the web search; it returns the fallback
message advising to verify the code exactly when the search string is
empty, contains `"Error"`, or has at most 10 characters, and otherwise
presents the search string (truncated to 800 characters) as a found
result — including the case of a failed search, whose
`"Search unavailable: <e>"` string normally passes the filter. -/
theorem claim_C2_amended (o : SearchOutcome) (s : String)
    (h4 : (pyStrip (pyUpper s)).length = 4)
    (hnone : pyDictGet AIRPORT_DB (pyStrip (pyUpper s)) = none) :
    (lookup_airport o s).2 = true ∧
    ((web_search o ("ICAO airport code " ++ pyStrip (pyUpper s) ++ " location airport name") ≠ "" ∧
      pyIn "Error" (web_search o ("ICAO airport code " ++ pyStrip (pyUpper s) ++ " location airport name")) = false ∧
      (web_search o ("ICAO airport code " ++ pyStrip (pyUpper s) ++ " location airport name")).length > 10) →
      lookup_airport o s =
        ("⚠️ ICAO code \x27" ++ pyStrip (pyUpper s) ++ "\x27 not found in local database.\n" ++
         "🔎 Searching online...\n\n" ++
         "📍 Found result:\n" ++
           pyTake 800 (web_search o ("ICAO airport code " ++ pyStrip (pyUpper s) ++ " location airport name")),
         true)) ∧
    (¬(web_search o ("ICAO airport code " ++ pyStrip (pyUpper s) ++ " location airport name") ≠ "" ∧
      pyIn "Error" (web_search o ("ICAO airport code " ++ pyStrip (pyUpper s) ++ " location airport name")) = false ∧
      (web_search o ("ICAO airport code " ++ pyStrip (pyUpper s) ++ " location airport name")).length > 10) →
      lookup_airport o s =
        ("❌ ICAO code \x27" ++ pyStrip (pyUpper s) ++ "\x27 not found in local database.\n" ++
         "🔍 Web search did not return useful results.\n" ++
         "💡 Please verify the ICAO code and try again.", true)) :=
  ⟨lookup_airport_miss_invokes o s h4 hnone,
   fun hc => lookup_airport_miss_good o s h4 hnone hc,
   fun hc => lookup_airport_miss_bad o s h4 hnone hc⟩

/-- Witness for C2 (amended) at `"QQQQ"` with an empty search result,
which triggers the fallback message. -/
theorem claim_C2_witness :
    (pyStrip (pyUpper "QQQQ")).length = 4 ∧
    pyDictGet AIRPORT_DB (pyStrip (pyUpper "QQQQ")) = none ∧
    lookup_airport (SearchOutcome.success "") "QQQQ" =
      ("❌ ICAO code \x27QQQQ\x27 not found in local database.\n" ++
       "🔍 Web search did not return useful results.\n" ++
       "💡 Please verify the ICAO code and try again.", true) :=
  ⟨by decide, by decide,
   (claim_C2_amended (SearchOutcome.success "") "QQQQ" (by decide) (by decide)).2.2 (by decide)⟩

/-- C3 fails on the code: the length validation is applied to the
uppercased and trimmed input, not to the raw input.  The raw input
`" OJAA "` has length 6, yet `lookup_airport` returns the table entry,
and the raw input `" HECAYFYX "` has length 10, yet
`bridge_aftn_to_amhs` returns the converted address. -/
theorem claim_C3_counterexample :
    " OJAA ".length ≠ 4 ∧
    lookup_airport (SearchOutcome.failure "boom") " OJAA " = ("Queen Alia (Jordan)", false) ∧
    " HECAYFYX ".length ≠ 8 ∧
    bridge_aftn_to_amhs " HECAYFYX " = "/C=XX/A=ICAO/P=EGYPT/O=HECA/OU1=YFYX/" := by
  decide

/-- C3 (amended): for every input whose uppercased and trimmed form
does not have length 4, `lookup_airport` returns the validation-error
string (which embeds the trimmed code) without invoking the web search,
and for every input whose uppercased and trimmed form does not have
length 8, `bridge_aftn_to_amhs` returns its fixed validation-error
string (the conversion performs no external call at all). -/
theorem claim_C3_amended (o : SearchOutcome) (s t : String)
    (h4 : (pyStrip (pyUpper s)).length ≠ 4)
    (h8 : (pyStrip (pyUpper t)).length ≠ 8) :
    lookup_airport o s =
      ("Error: ICAO code must be exactly 4 characters. Got: \x27" ++ pyStrip (pyUpper s) ++ "\x27",
       false) ∧
    bridge_aftn_to_amhs t = "Error: Address must be exactly 8 characters." :=
  ⟨lookup_airport_invalid o s h4, bridge_invalid t h8⟩

/-- Witness for C3 (amended) at the three-character input `"ABC"`. -/
theorem claim_C3_witness :
    (pyStrip (pyUpper "ABC")).length ≠ 4 ∧
    (pyStrip (pyUpper "ABC")).length ≠ 8 ∧
    (lookup_airport (SearchOutcome.failure "boom") "ABC" =
      ("Error: ICAO code must be exactly 4 characters. Got: \x27" ++ pyStrip (pyUpper "ABC") ++ "\x27",
       false) ∧
     bridge_aftn_to_amhs "ABC" = "Error: Address must be exactly 8 characters.") :=
  ⟨by decide, by decide,
   claim_C3_amended (SearchOutcome.failure "boom") "ABC" "ABC" (by decide) (by decide)⟩

/-- C5: the three concrete examples of the specification.
`lookup_airport` on `"OJAA"` returns `"Queen Alia (Jordan)"` for every
search outcome, the conversion of `"HECAYFYX"` contains
`/P=EGYPT/O=HECA/OU1=YFYX/`, and `lookup_airport` on `"ABC"` returns
the length-validation error string. -/
theorem claim_C5_examples : ∀ o : SearchOutcome,
    lookup_airport o "OJAA" = ("Queen Alia (Jordan)", false) ∧
    pyIn "/P=EGYPT/O=HECA/OU1=YFYX/" (bridge_aftn_to_amhs "HECAYFYX") = true ∧
    lookup_airport o "ABC" =
      ("Error: ICAO code must be exactly 4 characters. Got: \x27ABC\x27", false) := by
  intro o
  refine ⟨?_, by decide, ?_⟩
  · exact lookup_airport_found o "OJAA" "Queen Alia (Jordan)" (by decide)
  · have h := lookup_airport_invalid o "ABC" (by decide)
    rw [h]
    decide

/-- C6 fails on the code: the address-prefix table does not map only
two-letter prefixes — its entry for the USA has the one-letter key
`"K"`. -/
theorem claim_C6_counterexample :
    ¬((prmd_map.all fun p => p.1.length == 2) = true) := by
  decide

/-- C6 (amended): the airport table has exactly fifteen entries, all
keyed by four-letter codes; the address-prefix table has exactly
thirteen entries, twelve keyed by two-letter prefixes plus the
one-letter key `"K"`, and it is the table consulted by the
eight-character address conversion. -/
theorem claim_C6_amended :
    AIRPORT_DB.length = 15 ∧
    (AIRPORT_DB.all fun p => p.1.length == 4) = true ∧
    prmd_map.length = 13 ∧
    (prmd_map.all fun p => p.1.length == 2 || p.1 == "K") = true ∧
    ("K", "USA") ∈ prmd_map ∧
    bridge_aftn_to_amhs "HECAYFYX" =
      "/C=XX/A=ICAO/P=" ++ (pyDictGet prmd_map "HE").getD "UNKNOWN" ++ "/O=HECA/OU1=YFYX/" := by
  refine ⟨rfl, by decide, rfl, by decide, by decide, by decide⟩

/-- C4: `bridge_aftn_to_amhs` is total over all 8-character
uppercase-alphabetic inputs (code points 65–90, i.e. `A`–`Z`): it
always returns the structured X.400 string built from the `prmd_map`
lookup of the first two characters and the two four-character slices.
Determinism and absence of exceptions are inherent in the function
being a pure total Lean function of its input. -/
theorem claim_C4_total_on_upper (s : String)
    (halpha : ∀ c ∈ s.data, 65 ≤ c.toNat ∧ c.toNat ≤ 90)
    (h8 : s.length = 8) :
    bridge_aftn_to_amhs s =
      "/C=XX/A=ICAO/P=" ++ (pyDictGet prmd_map ⟨s.data.take 2⟩).getD "UNKNOWN" ++
        "/O=" ++ (⟨s.data.take 4⟩ : String) ++
        "/OU1=" ++ (⟨s.data.drop 4⟩ : String) ++ "/" := by
  have hn := pyNormalize_fixed s halpha
  have h := bridge_valid s (by rw [hn]; exact h8)
  rw [hn] at h
  exact h

/-- Witness for C4 at `"HECAYFYX"`. -/
theorem claim_C4_witness :
    (∀ c ∈ "HECAYFYX".data, 65 ≤ c.toNat ∧ c.toNat ≤ 90) ∧
    "HECAYFYX".length = 8 ∧
    bridge_aftn_to_amhs "HECAYFYX" =
      "/C=XX/A=ICAO/P=" ++ (pyDictGet prmd_map ⟨"HECAYFYX".data.take 2⟩).getD "UNKNOWN" ++
        "/O=" ++ (⟨"HECAYFYX".data.take 4⟩ : String) ++
        "/OU1=" ++ (⟨"HECAYFYX".data.drop 4⟩ : String) ++ "/" :=
  ⟨by decide, by decide, claim_C4_total_on_upper "HECAYFYX" (by decide) (by decide)⟩

/-- C9: for every input whose uppercased and trimmed form has exactly 8
characters, the conversion output has the shape
`/C=XX/A=ICAO/P=<country>/O=<first four>/OU1=<last four>/` over the
normalised address, the country defaults to `"UNKNOWN"` whenever the
two-character slice is not a key of `prmd_map`, and an address
beginning with `K` never matches the one-character table entry `"K"`
(the lookup key always has two characters), so its lookup is `none` and
its country renders as `UNKNOWN`. -/
theorem claim_C9_shape_and_K (s : String)
    (h8 : (pyStrip (pyUpper s)).length = 8) :
    bridge_aftn_to_amhs s =
      "/C=XX/A=ICAO/P=" ++
        (pyDictGet prmd_map ⟨(pyStrip (pyUpper s)).data.take 2⟩).getD "UNKNOWN" ++
        "/O=" ++ (⟨(pyStrip (pyUpper s)).data.take 4⟩ : String) ++
        "/OU1=" ++ (⟨(pyStrip (pyUpper s)).data.drop 4⟩ : String) ++ "/" ∧
    (pyDictGet prmd_map ⟨(pyStrip (pyUpper s)).data.take 2⟩ = none →
      (pyDictGet prmd_map ⟨(pyStrip (pyUpper s)).data.take 2⟩).getD "UNKNOWN" = "UNKNOWN") ∧
    ((pyStrip (pyUpper s)).data.head? = some 'K' →
      pyDictGet prmd_map ⟨(pyStrip (pyUpper s)).data.take 2⟩ = none) := by
  refine ⟨bridge_valid s h8, fun h => by rw [h]; rfl, ?_⟩
  intro hK
  have hl : (pyStrip (pyUpper s)).data.length = 8 := h8
  cases hd : (pyStrip (pyUpper s)).data with
  | nil => rw [hd] at hK; cases hK
  | cons c t =>
    rw [hd] at hK hl
    cases t with
    | nil => simp at hl
    | cons c2 t2 =>
      have hc : c = 'K' := by
        have := hK
        simp only [List.head?] at this
        exact (Option.some.injEq _ _).mp this
      subst hc
      exact prmd_map_lookup_K c2

/-- Witness for C9 at `"KJFKYFYX"`, an address beginning with `K`. -/
theorem claim_C9_witness :
    (pyStrip (pyUpper "KJFKYFYX")).length = 8 ∧
    (bridge_aftn_to_amhs "KJFKYFYX" =
      "/C=XX/A=ICAO/P=" ++
        (pyDictGet prmd_map ⟨(pyStrip (pyUpper "KJFKYFYX")).data.take 2⟩).getD "UNKNOWN" ++
        "/O=" ++ (⟨(pyStrip (pyUpper "KJFKYFYX")).data.take 4⟩ : String) ++
        "/OU1=" ++ (⟨(pyStrip (pyUpper "KJFKYFYX")).data.drop 4⟩ : String) ++ "/" ∧
     (pyDictGet prmd_map ⟨(pyStrip (pyUpper "KJFKYFYX")).data.take 2⟩ = none →
       (pyDictGet prmd_map ⟨(pyStrip (pyUpper "KJFKYFYX")).data.take 2⟩).getD "UNKNOWN" = "UNKNOWN") ∧
     ((pyStrip (pyUpper "KJFKYFYX")).data.head? = some 'K' →
       pyDictGet prmd_map ⟨(pyStrip (pyUpper "KJFKYFYX")).data.take 2⟩ = none)) :=
  ⟨by decide, claim_C9_shape_and_K "KJFKYFYX" (by decide)⟩

/-- C7 fails on the code: with a credential supplied, a failing git
subprocess (every git call uses `check=True`) raises an uncaught
`CalledProcessError` that terminates the process abnormally after the
three deployment files were written, so a missing credential is not the
only condition that terminates the process abnormally. -/
theorem claim_C7_counterexample :
    pyFalsy (pyOrStr (some "key") none) = false ∧
    mainRun (CliEnv.mk (some "key") none (some "space") none false "y" "url" fun _ => false) =
      ([DeployAction.fileWrite "app.py", DeployAction.fileWrite "requirements.txt",
        DeployAction.fileWrite "README.md", DeployAction.gitCmd "git init"],
       ProcOutcome.uncaught "CalledProcessError") := by
  refine ⟨rfl, ?_⟩
  decide

/-- C7 (amended): a missing API credential (neither the flag nor the
environment variable carrying a non-empty value) makes `main` exit with
status 1 before any file or subprocess activity; with a credential
present the run either finishes normally or terminates abnormally with
an uncaught `CalledProcessError` from a failing `check=True` git
invocation — the latter being the only other abnormal termination. -/
theorem claim_C7_amended (env : CliEnv) :
    (pyFalsy (pyOrStr env.apiKeyArg env.envApiKey) = true →
      mainRun env = ([], ProcOutcome.exited 1)) ∧
    (pyFalsy (pyOrStr env.apiKeyArg env.envApiKey) = false →
      (mainRun env).2 = ProcOutcome.finished ∨
      (mainRun env).2 = ProcOutcome.uncaught "CalledProcessError") :=
  ⟨mainRun_missing_key env, mainRun_outcome_with_key env⟩

/-- Witness for C7 (amended): with no flag and no environment variable
the process exits with status 1 and an empty action trace. -/
theorem claim_C7_witness :
    pyFalsy (pyOrStr (none : Option String) none) = true ∧
    mainRun (CliEnv.mk none none none none false "" "" fun _ => true) =
      ([], ProcOutcome.exited 1) :=
  ⟨by decide,
   (claim_C7_amended (CliEnv.mk none none none none false "" "" fun _ => true)).1 (by decide)⟩

/-- C8: `save_session` on a readable stored file rewrites the mapping
wholesale — the new file is exactly the parsed mapping with
`session_id` bound to a record of the current timestamp and the given
history, every key other than `session_id` is bound to its previous
value, and the bound entries are last-writer-wins (the whole mapping is
re-serialised). -/
theorem claim_C8_save_session (entries : List (String × SessionRecord))
    (now sid k : String) (hist : List Message) (hk : k ≠ sid) :
    save_session (SessionFile.stored entries) now sid hist =
      SessionFile.stored (dictSet entries sid ⟨now, hist⟩) ∧
    lookupSession (dictSet entries sid ⟨now, hist⟩) sid = some ⟨now, hist⟩ ∧
    lookupSession (dictSet entries sid ⟨now, hist⟩) k = lookupSession entries k :=
  ⟨rfl, lookupSession_dictSet_self entries sid ⟨now, hist⟩,
   lookupSession_dictSet_other entries sid k ⟨now, hist⟩ hk⟩

/-- Witness for C8 on a two-entry stored file, updating `"b"` and
checking that `"a"` keeps its record. -/
theorem claim_C8_witness :
    "a" ≠ "b" ∧
    (save_session (SessionFile.stored [("a", SessionRecord.mk "t0" []), ("b", SessionRecord.mk "t1" [])])
        "t2" "b" [] =
      SessionFile.stored
        (dictSet [("a", SessionRecord.mk "t0" []), ("b", SessionRecord.mk "t1" [])] "b"
          ⟨"t2", []⟩) ∧
     lookupSession
        (dictSet [("a", SessionRecord.mk "t0" []), ("b", SessionRecord.mk "t1" [])] "b"
          ⟨"t2", []⟩) "b" = some ⟨"t2", []⟩ ∧
     lookupSession
        (dictSet [("a", SessionRecord.mk "t0" []), ("b", SessionRecord.mk "t1" [])] "b"
          ⟨"t2", []⟩) "a" =
       lookupSession [("a", SessionRecord.mk "t0" []), ("b", SessionRecord.mk "t1" [])] "a") :=
  ⟨by decide,
   claim_C8_save_session [("a", SessionRecord.mk "t0" []), ("b", SessionRecord.mk "t1" [])]
     "t2" "b" "a" [] (by decide)⟩

/-- C10: `load_session` is a total function returning the empty history
in every non-success case — file absent, file unreadable or unparsable,
or session id not bound — and the stored history of the requested id
otherwise. -/
theorem claim_C10_load_session (sid : String) (entries : List (String × SessionRecord)) :
    load_session SessionFile.absent sid = [] ∧
    load_session SessionFile.unreadable sid = [] ∧
    (lookupSession entries sid = none → load_session (SessionFile.stored entries) sid = []) ∧
    (∀ r : SessionRecord, lookupSession entries sid = some r →
      load_session (SessionFile.stored entries) sid = r.history) := by
  refine ⟨rfl, rfl, ?_, ?_⟩
  · intro h
    simp [load_session, h]
  · intro r h
    simp [load_session, h]

/-- Witness for C10 on a one-entry stored file. -/
theorem claim_C10_witness :
    lookupSession [("a", SessionRecord.mk "t" [[("role", "user")]])] "a" =
      some (SessionRecord.mk "t" [[("role", "user")]]) ∧
    load_session (SessionFile.stored [("a", SessionRecord.mk "t" [[("role", "user")]])]) "a" =
      (SessionRecord.mk "t" [[("role", "user")]]).history :=
  ⟨rfl,
   (claim_C10_load_session "a" [("a", SessionRecord.mk "t" [[("role", "user")]])]).2.2.2
     (SessionRecord.mk "t" [[("role", "user")]]) rfl⟩
